import Mathlib

/-!
Verification of the Slippi playback seek/snapshot engine
(`Source/Core/Core/Slippi/SlippiPlayback.cpp`).

The C++ source is shallowly embedded: machine integers (`s32`, `int`)
become `Int` (the code never overflows in the reachable range considered
here; `INT_MAX`/`INT_MIN` are kept as explicit constants), C++ `%`
(truncated remainder) becomes `Int.tmod`, the `futureDiffs` map is
modelled by the list of its keys, and stateful methods become functions
from a state record to a state record (plus explicit outputs for the
condition-variable signals and `State::LoadFromBuffer` calls they emit).
-/

/-- `#define FRAME_INTERVAL 900` from SlippiPlayback.cpp. -/
def FRAME_INTERVAL : Int := 900

/-- C `INT_MAX` (32-bit). -/
def INT_MAX : Int := 2147483647

/-- C `INT_MIN` (32-bit). -/
def INT_MIN : Int := -2147483648

/-- Modelled from the spec: `Slippi::GAME_FIRST_FRAME`, the first frame of a
replay, is defined in a Slippi header that is not part of this tree; the
spec gives `-123` as the first-frame constant. -/
def GAME_FIRST_FRAME : Int := -123

/-- Modelled from the spec: `Slippi::PLAYBACK_FIRST_SAVE`
(`firstSnapshotFrame = -123 (example constant)` in the spec) is defined in
a Slippi header that is not part of this tree. -/
def PLAYBACK_FIRST_SAVE : Int := -123

/-- `emod` from SlippiPlayback.cpp: C++ `%` is truncated remainder
(`Int.tmod`); `emod` shifts a negative remainder up by `|b|`. The
`assert(b != 0)` is not modelled (all call sites pass `FRAME_INTERVAL`). -/
def emod (a b : Int) : Int :=
  let r := Int.tmod a b
  if r ≥ 0 then r else r + |b|

/-- Line 245 of SlippiPlayback.cpp:
`closestStateFrame = targetFrameNum - emod(targetFrameNum - PLAYBACK_FIRST_SAVE, FRAME_INTERVAL)`. -/
def closestStateFrame (targetFrameNum : Int) : Int :=
  targetFrameNum - emod (targetFrameNum - PLAYBACK_FIRST_SAVE) FRAME_INTERVAL

/-- The shared mutable fields of `SlippiPlaybackStatus` (SlippiPlayback.cpp).
`futureDiffs` (an `unordered_map` from frame number to a `std::future` of the
encoded diff) is modelled by the list of its keys; the diff bytes themselves
are outside the properties considered here. -/
structure PlaybackState where
  shouldJumpBack : Bool
  shouldJumpForward : Bool
  inSlippiPlayback : Bool
  shouldRunThreads : Bool
  isHardFFW : Bool
  isSoftFFW : Bool
  lastFFWFrame : Int
  currentPlaybackFrame : Int
  targetFrameNum : Int
  latestFrame : Int
  prevOCEnable : Bool
  prevOCFactor : Rat
  futureDiffs : List Int
  deriving DecidableEq

/-- The `SlippiPlaybackStatus` constructor (lines 56-76): all flags false,
`lastFFWFrame = currentPlaybackFrame = INT_MIN`, `targetFrameNum = INT_MAX`,
`latestFrame = Slippi::GAME_FIRST_FRAME`, and the overclock settings of the
global config captured into `prevOCEnable` / `prevOCFactor`. -/
def SlippiPlaybackStatus.init (m_OCEnable : Bool) (m_OCFactor : Rat) : PlaybackState :=
  { shouldJumpBack := false
    shouldJumpForward := false
    inSlippiPlayback := false
    shouldRunThreads := false
    isHardFFW := false
    isSoftFFW := false
    lastFFWFrame := INT_MIN
    currentPlaybackFrame := INT_MIN
    targetFrameNum := INT_MAX
    latestFrame := GAME_FIRST_FRAME
    prevOCEnable := m_OCEnable
    prevOCFactor := m_OCFactor
    futureDiffs := [] }

/-- The frame hook's backpressure guard (line 96): `prepareSlippiPlayback`
loops (blocks the execution thread) while
`shouldRunThreads && numDiffsProcessing > 3`. -/
def hookBlocksDiff (shouldRunThreads : Bool) (numDiffsProcessing : Int) : Bool :=
  shouldRunThreads && decide (numDiffsProcessing > 3)

/-- Events of the in-flight diff counter `numDiffsProcessing`: a diff job
starting (`processDiff`, line 44, increments the counter) and a diff job
completing (line 51, decrements it). -/
inductive DiffEvent where
  | start
  | finish
  deriving DecidableEq

/-- One step of the diff-counter transition system. A `start` is possible
only while the frame hook is not blocked (`numDiffsProcessing ≤ 3`): a new
diff job is dispatched by the savestate thread only when a fresh interval
boundary is reached, which requires the execution thread to have passed the
guard at line 96 of `prepareSlippiPlayback`. A `finish` is possible only
while a job is in flight (the counter counts exactly the jobs between their
increment and their decrement). An event whose guard fails yields `none`. -/
def diffStep (n : Int) : DiffEvent → Option Int
  | .start => if hookBlocksDiff true n then none else some (n + 1)
  | .finish => if n ≥ 1 then some (n - 1) else none

/-- Run a sequence of diff-counter events from counter value `n`. -/
def diffRun (n : Int) : List DiffEvent → Option Int
  | [] => some n
  | e :: es =>
    match diffStep n e with
    | some m => diffRun m es
    | none => none

/-- The condition-variable signals emitted by one `prepareSlippiPlayback`
call: `condVar.notify_one()` (line 104, wakes the savestate thread) and
`cv_waitingForTargetFrame.notify_one()` (line 130, wakes the seek thread). -/
structure FrameHookResult where
  state : PlaybackState
  notifiedSavestate : Bool
  notifiedTargetFrame : Bool
  deriving DecidableEq

/-- `SlippiPlaybackStatus::prepareSlippiPlayback` (lines 93-132), the
per-frame hook, after its backpressure loop (modelled separately by
`hookBlocksDiff`) has exited. The OSD frame display (lines 106-113) has no
effect on the playback state. If a seek is in flight and `frameIndex` has
reached `targetFrameNum`, an overshooting `currentPlaybackFrame` is rewound
to `targetFrameNum` and the seek thread is signaled. -/
def prepareSlippiPlayback (st : PlaybackState) (frameIndex : Int) : FrameHookResult :=
  let notifiedSavestate :=
    st.shouldRunThreads && decide (Int.tmod (st.currentPlaybackFrame + 122) FRAME_INTERVAL = 0)
  if st.inSlippiPlayback ∧ frameIndex ≥ st.targetFrameNum then
    let st' :=
      if st.targetFrameNum < st.currentPlaybackFrame then
        { st with currentPlaybackFrame := st.targetFrameNum }
      else st
    { state := st', notifiedSavestate := notifiedSavestate, notifiedTargetFrame := true }
  else
    { state := st, notifiedSavestate := notifiedSavestate, notifiedTargetFrame := false }

/-- Seek target resolution, lines 228-243 of `SlippiPlaybackStatus::SeekThread`:
a forward jump retargets to `currentPlaybackFrame + 300`, then a backward
jump retargets to `currentPlaybackFrame - 300` (taking precedence if both
flags are set), then the target is clamped below by `PLAYBACK_FIRST_SAVE`
and above by `latestFrame`, in that order. -/
def resolveTargetFrame (shouldJumpForward shouldJumpBack : Bool)
    (currentPlaybackFrame targetFrameNum latestFrame : Int) : Int :=
  let jumpInterval : Int := 300
  let t1 := if shouldJumpForward then currentPlaybackFrame + jumpInterval else targetFrameNum
  let t2 := if shouldJumpBack then currentPlaybackFrame - jumpInterval else t1
  let t3 := if t2 < PLAYBACK_FIRST_SAVE then PLAYBACK_FIRST_SAVE else t2
  if t3 > latestFrame then latestFrame else t3

/-- The backward walk of `SeekThread` for a forward seek (lines 274-277):
starting from a candidate snapshot boundary, step down by `FRAME_INTERVAL`
while the candidate is still strictly past `currentPlaybackFrame` and no
diff exists for it. -/
def forwardWalk (futureDiffs : List Int) (currentPlaybackFrame cand : Int) : Int :=
  if _h : cand > currentPlaybackFrame ∧ cand ∉ futureDiffs then
    forwardWalk futureDiffs currentPlaybackFrame (cand - FRAME_INTERVAL)
  else cand
termination_by (cand - currentPlaybackFrame).toNat
decreasing_by
  unfold FRAME_INTERVAL
  omega

/-- Lines 272-282 of `SeekThread`: the load decision for a forward seek
(`targetFrameNum > currentPlaybackFrame`) whose exact `closestStateFrame`
has no diff. The walk starts at `closestStateFrame - FRAME_INTERVAL`; a
state is loaded (result `some frame`) only if the walk ends strictly past
`currentPlaybackFrame`, otherwise nothing is loaded (`none`). -/
def seekForwardLoad (futureDiffs : List Int)
    (closestStateFrame currentPlaybackFrame : Int) : Option Int :=
  let closestActualStateFrame :=
    forwardWalk futureDiffs currentPlaybackFrame (closestStateFrame - FRAME_INTERVAL)
  if closestActualStateFrame > currentPlaybackFrame then some closestActualStateFrame
  else none

/-- The backward walk of `SeekThread` for a backward seek (lines 266-270):
step down by `FRAME_INTERVAL` while the candidate is strictly past
`PLAYBACK_FIRST_SAVE` and has no diff; the resulting frame is always
loaded. -/
def backwardWalk (futureDiffs : List Int) (cand : Int) : Int :=
  if _h : cand > PLAYBACK_FIRST_SAVE ∧ cand ∉ futureDiffs then
    backwardWalk futureDiffs (cand - FRAME_INTERVAL)
  else cand
termination_by (cand - PLAYBACK_FIRST_SAVE).toNat
decreasing_by
  unfold FRAME_INTERVAL PLAYBACK_FIRST_SAVE
  unfold PLAYBACK_FIRST_SAVE at _h
  omega

/-- The state visible to `SeekThread` beyond `PlaybackState`: the global
config's overclock settings (`SConfig::GetInstance().m_OCEnable` /
`m_OCFactor`, the float factor modelled as `Rat`), the execution engine's
run state (`Core::GetState() == Core::CORE_PAUSE` as `corePaused`), and the
replay source (`g_replayComm`): its mode string and the mutable
`current.startFrame` / `current.endFrame` bounds. -/
structure SeekWorld where
  ps : PlaybackState
  m_OCEnable : Bool
  m_OCFactor : Rat
  corePaused : Bool
  commMode : String
  commStartFrame : Int
  commEndFrame : Int
  deriving DecidableEq

/-- `SlippiPlaybackStatus::setHardFFW` (lines 313-326): sets `isHardFFW`;
on enable, forces overclock on at factor 4; on disable, restores the
constructor-captured `prevOCFactor` / `prevOCEnable`. -/
def setHardFFW (w : SeekWorld) (enable : Bool) : SeekWorld :=
  let w1 : SeekWorld := { w with ps := { w.ps with isHardFFW := enable } }
  if enable then { w1 with m_OCEnable := true, m_OCFactor := 4 }
  else { w1 with m_OCFactor := w1.ps.prevOCFactor, m_OCEnable := w1.ps.prevOCEnable }

/-- `SlippiPlaybackStatus::updateWatchSettingsStartEnd` (lines 360-371) as a
function of (`targetFrameNum`, old `startFrame`, old `endFrame`) returning
the new `(startFrame, endFrame)`: when the bounds are non-default, a target
below `startFrame` becomes the new `startFrame`, and a target above
`endFrame` resets `endFrame` to `INT_MAX`. -/
def updateWatchSettingsStartEnd (targetFrameNum startFrame endFrame : Int) : Int × Int :=
  if startFrame ≠ GAME_FIRST_FRAME ∨ endFrame ≠ INT_MAX then
    (if targetFrameNum < startFrame then targetFrameNum else startFrame,
     if targetFrameNum > endFrame then INT_MAX else endFrame)
  else (startFrame, endFrame)

/-- One `shouldSeek` iteration of `SlippiPlaybackStatus::SeekThread`
(lines 219-304). `frameAfterWait` is the playback frame at which the
execution engine stands when `cv_waitingForTargetFrame` wakes the seek
thread (the engine runs concurrently during the hard-fast-forward wait;
everything else in the iteration is sequential). The second component is
the frame whose state is loaded (`State::LoadFromBuffer`), if any:
`PLAYBACK_FIRST_SAVE` stands for loading the base snapshot `iState`. -/
def seekThreadIteration (w : SeekWorld) (frameAfterWait : Int) : SeekWorld × Option Int :=
  let w :=
    if w.commMode = "queue" then
      let se := updateWatchSettingsStartEnd w.ps.targetFrameNum w.commStartFrame w.commEndFrame
      { w with commStartFrame := se.1, commEndFrame := se.2 }
    else w
  let paused := w.corePaused
  let w : SeekWorld := { w with corePaused := true }
  let tgt := resolveTargetFrame w.ps.shouldJumpForward w.ps.shouldJumpBack
    w.ps.currentPlaybackFrame w.ps.targetFrameNum w.ps.latestFrame
  let w : SeekWorld := { w with ps := { w.ps with targetFrameNum := tgt } }
  let closest := closestStateFrame tgt
  let isLoadingStateOptimal :=
    tgt ≤ w.ps.currentPlaybackFrame ∨ closest > w.ps.currentPlaybackFrame
  let loaded : Option Int :=
    if isLoadingStateOptimal then
      if closest ≤ PLAYBACK_FIRST_SAVE then some PLAYBACK_FIRST_SAVE
      else if closest ∈ w.ps.futureDiffs then some closest
      else if tgt < w.ps.currentPlaybackFrame then
        some (backwardWalk w.ps.futureDiffs (closest - FRAME_INTERVAL))
      else if tgt > w.ps.currentPlaybackFrame then
        seekForwardLoad w.ps.futureDiffs closest w.ps.currentPlaybackFrame
      else none
    else none
  let w : SeekWorld :=
    if tgt ≠ closest ∧ tgt ≠ w.ps.latestFrame then
      let w1 := setHardFFW w true
      let w2 : SeekWorld := { w1 with corePaused := false }
      let w3 : SeekWorld := { w2 with ps := { w2.ps with currentPlaybackFrame := frameAfterWait } }
      let w4 : SeekWorld := { w3 with corePaused := true }
      setHardFFW w4 false
    else w
  let w : SeekWorld := if paused = false then { w with corePaused := false } else w
  ({ w with ps := { w.ps with
      shouldJumpBack := false
      shouldJumpForward := false
      targetFrameNum := INT_MAX } }, loaded)

/-- `SlippiPlaybackStatus::resetPlayback` (lines 134-157). The boolean
output records whether the thread-shutdown block ran (detaching the
savestate/seek threads, signaling `condVar` and clearing `futureDiffs`);
it runs only when `shouldRunThreads` was still set. The tail assignments
run unconditionally. `currentPlaybackFrame`, `latestFrame` and
`lastFFWFrame` are NOT touched. -/
def resetPlayback (st : PlaybackState) : PlaybackState × Bool :=
  if st.shouldRunThreads then
    ({ st with
       shouldRunThreads := false
       futureDiffs := []
       shouldJumpBack := false
       shouldJumpForward := false
       isHardFFW := false
       isSoftFFW := false
       targetFrameNum := INT_MAX
       inSlippiPlayback := false }, true)
  else
    ({ st with
       shouldJumpBack := false
       shouldJumpForward := false
       isHardFFW := false
       isSoftFFW := false
       targetFrameNum := INT_MAX
       inSlippiPlayback := false }, false)

/-- `SlippiPlaybackStatus::shouldFFWFrame` (lines 341-358): no FFW when
neither mode is on; always FFW under hard FFW; under soft FFW, FFW only
when at least 15 frames have passed since `lastFFWFrame`. -/
def shouldFFWFrame (st : PlaybackState) (frameIndex : Int) : Bool :=
  if ¬ st.isSoftFFW ∧ ¬ st.isHardFFW then false
  else if st.isHardFFW then true
  else decide (frameIndex - st.lastFFWFrame ≥ 15)

/-- `shouldFFWFrame` as a `const` method call in explicit state-passing
style: the method body contains no assignment, so the call returns the
state it was given. -/
def shouldFFWFrameCall (st : PlaybackState) (frameIndex : Int) : Bool × PlaybackState :=
  (shouldFFWFrame st frameIndex, st)

/-- `n` consecutive `shouldFFWFrame` calls on the same object with the same
argument, each call receiving the state left by the previous one; returns
the list of results and the final state. -/
def iterateFFWQuery (st : PlaybackState) (frameIndex : Int) : Nat → List Bool × PlaybackState
  | 0 => ([], st)
  | n + 1 =>
    let r := shouldFFWFrameCall st frameIndex
    let rest := iterateFFWQuery r.2 frameIndex n
    (r.1 :: rest.1, rest.2)

/-- A concrete mid-seek state used to instantiate the frame-hook theorem:
playback active, seek target 10, playback cursor overshot to 12. -/
def sampleSeekState : PlaybackState :=
  { SlippiPlaybackStatus.init false 1 with
    inSlippiPlayback := true
    shouldRunThreads := true
    targetFrameNum := 10
    currentPlaybackFrame := 12
    latestFrame := 5000 }

/-- A concrete quiescent seek-thread world: playback active at frame 1000,
forward jump requested, latest frame 5000, no diffs yet. -/
def sampleSeekWorld : SeekWorld :=
  { ps := { SlippiPlaybackStatus.init false 1 with
      inSlippiPlayback := true
      shouldRunThreads := true
      shouldJumpForward := true
      currentPlaybackFrame := 1000
      latestFrame := 5000 }
    m_OCEnable := false
    m_OCFactor := 1
    corePaused := false
    commMode := "normal"
    commStartFrame := GAME_FIRST_FRAME
    commEndFrame := INT_MAX }

/-- A concrete mid-session state: threads running, playback active, the
playback cursor and the frame-tracking fields advanced past their
constructor values. -/
def sampleSessionState : PlaybackState :=
  { SlippiPlaybackStatus.init false 1 with
    shouldRunThreads := true
    inSlippiPlayback := true
    currentPlaybackFrame := 100
    latestFrame := 3000
    lastFFWFrame := 50
    targetFrameNum := 700
    futureDiffs := [777] }

theorem neg_lt_tmod_of_pos (a b : Int) (hb : 0 < b) : -b < Int.tmod a b := by
  rcases le_or_lt 0 a with h | h
  · have := Int.tmod_nonneg b h
    omega
  · have h1 : Int.tmod (-a) b = -(Int.tmod a b) := by
      rw [Int.tmod_def, Int.tmod_def, Int.neg_tdiv]; ring
    have h2 := Int.tmod_lt_of_pos (-a) hb
    omega

theorem emod_nonneg_of_pos (a b : Int) (hb : 0 < b) : 0 ≤ emod a b := by
  unfold emod
  simp only
  split
  · assumption
  · have h1 := neg_lt_tmod_of_pos a b hb
    have : |b| = b := abs_of_pos hb
    omega

theorem emod_congr (a b : Int) : b ∣ (a - emod a b) := by
  unfold emod
  simp only
  have htm : b * Int.tdiv a b + Int.tmod a b = a := Int.tdiv_add_tmod a b
  split
  · exact ⟨Int.tdiv a b, by omega⟩
  · rcases abs_choice b with h | h
    · exact ⟨Int.tdiv a b - 1, by rw [h] at *; ring_nf; omega⟩
    · exact ⟨Int.tdiv a b + 1, by rw [h] at *; ring_nf; omega⟩

/-- C2: for every target `T`, `emod (T - PLAYBACK_FIRST_SAVE) FRAME_INTERVAL`
is non-negative, hence the computed `closestStateFrame` is `≤ T`, and it is
congruent to `PLAYBACK_FIRST_SAVE` modulo `FRAME_INTERVAL`. -/
theorem c2_closest_state_frame (T : Int) :
    0 ≤ emod (T - PLAYBACK_FIRST_SAVE) FRAME_INTERVAL ∧
    closestStateFrame T ≤ T ∧
    (closestStateFrame T - PLAYBACK_FIRST_SAVE) % FRAME_INTERVAL = 0 := by
  have hpos : (0 : Int) < FRAME_INTERVAL := by unfold FRAME_INTERVAL; omega
  have hnn := emod_nonneg_of_pos (T - PLAYBACK_FIRST_SAVE) FRAME_INTERVAL hpos
  refine ⟨hnn, ?_, ?_⟩
  · unfold closestStateFrame; omega
  · have hdvd := emod_congr (T - PLAYBACK_FIRST_SAVE) FRAME_INTERVAL
    have : closestStateFrame T - PLAYBACK_FIRST_SAVE =
        (T - PLAYBACK_FIRST_SAVE) - emod (T - PLAYBACK_FIRST_SAVE) FRAME_INTERVAL := by
      unfold closestStateFrame; ring
    rw [this]
    exact Int.emod_eq_zero_of_dvd hdvd

theorem diffRun_bounded (tr : List DiffEvent) :
    ∀ m n : Int, 0 ≤ m → m ≤ 4 → diffRun m tr = some n → 0 ≤ n ∧ n ≤ 4 := by
  induction tr with
  | nil =>
    intro m n h0 h4 hrun
    simp only [diffRun] at hrun
    injection hrun with h
    omega
  | cons e es ih =>
    intro m n h0 h4 hrun
    cases e with
    | start =>
      simp only [diffRun, diffStep, hookBlocksDiff] at hrun
      by_cases hb : m > 3
      · simp [hb] at hrun
      · simp [hb] at hrun
        exact ih (m + 1) n (by omega) (by omega) hrun
    | finish =>
      simp only [diffRun, diffStep] at hrun
      by_cases hb : m ≥ 1
      · simp [hb] at hrun
        exact ih (m - 1) n (by omega) (by omega) hrun
      · simp [hb] at hrun

/-- C1 counterexample: starting four diff jobs in a row is a valid event
sequence (the frame hook's guard `numDiffsProcessing > 3` does not block
while only three jobs are in flight), and it drives the counter to 4 > 3;
moreover the hook does not block at counter value 3, so a new diff job CAN
begin while 3 are in flight. -/
theorem c1_counterexample :
    diffRun 0 [DiffEvent.start, DiffEvent.start, DiffEvent.start, DiffEvent.start] =
      some 4 ∧
    hookBlocksDiff true 3 = false := by
  constructor
  · rfl
  · rfl

/-- C1 (amended): along every event sequence from counter 0, the in-flight
diff counter stays in `[0, 4]` (it can reach 4, one past the guard value 3,
but never exceeds 4 and never goes negative), and the frame hook
`prepareSlippiPlayback` blocks exactly while the counter is strictly above
3 (so no new diff job can begin while 4 are in flight, but one can while 3
are). -/
theorem c1_diff_counter_bounded :
    (∀ (tr : List DiffEvent) (n : Int), diffRun 0 tr = some n → 0 ≤ n ∧ n ≤ 4) ∧
    hookBlocksDiff true 4 = true ∧ hookBlocksDiff true 3 = false := by
  refine ⟨?_, rfl, rfl⟩
  intro tr n hrun
  exact diffRun_bounded tr 0 n (by omega) (by omega) hrun

/-- Witness for C1: the amended theorem applied to the concrete event
sequence `[start, finish, start]`, whose run ends at counter 1. -/
theorem c1_diff_counter_bounded_witness : (0 : Int) ≤ 1 ∧ (1 : Int) ≤ 4 :=
  c1_diff_counter_bounded.1 [DiffEvent.start, DiffEvent.finish, DiffEvent.start] 1 rfl

/-- C3: whenever a seek is in flight (`inSlippiPlayback` and
`frameIndex ≥ targetFrameNum`), after the frame hook runs the playback
cursor is not ahead of the (unchanged) target: an overshooting
`currentPlaybackFrame` is clamped back to exactly `targetFrameNum`, and the
waiting seek thread is signaled. -/
theorem c3_frame_hook_clamps (st : PlaybackState) (frameIndex : Int)
    (hplay : st.inSlippiPlayback = true) (hge : frameIndex ≥ st.targetFrameNum) :
    (prepareSlippiPlayback st frameIndex).state.targetFrameNum = st.targetFrameNum ∧
    (prepareSlippiPlayback st frameIndex).state.currentPlaybackFrame ≤ st.targetFrameNum ∧
    (st.currentPlaybackFrame > st.targetFrameNum →
      (prepareSlippiPlayback st frameIndex).state.currentPlaybackFrame = st.targetFrameNum) ∧
    (prepareSlippiPlayback st frameIndex).notifiedTargetFrame = true := by
  unfold prepareSlippiPlayback
  simp only [hplay, hge, true_and, if_pos, ge_iff_le, le_refl]
  split_ifs with h <;> simp_all

/-- Witness for C3: the frame-hook theorem at `sampleSeekState` with
`frameIndex = 10`; the overshot cursor 12 is clamped back to the target 10. -/
theorem c3_frame_hook_clamps_witness :
    (prepareSlippiPlayback sampleSeekState 10).state.targetFrameNum =
      sampleSeekState.targetFrameNum ∧
    (prepareSlippiPlayback sampleSeekState 10).state.currentPlaybackFrame ≤
      sampleSeekState.targetFrameNum ∧
    (sampleSeekState.currentPlaybackFrame > sampleSeekState.targetFrameNum →
      (prepareSlippiPlayback sampleSeekState 10).state.currentPlaybackFrame =
        sampleSeekState.targetFrameNum) ∧
    (prepareSlippiPlayback sampleSeekState 10).notifiedTargetFrame = true :=
  c3_frame_hook_clamps sampleSeekState 10 (by decide) (by decide)

/-- C4: assuming the session invariant `PLAYBACK_FIRST_SAVE ≤ latestFrame`,
the resolved seek target is clamped into
`[PLAYBACK_FIRST_SAVE, latestFrame]`; a backward jump whose raw target
`currentPlaybackFrame - 300` falls below `PLAYBACK_FIRST_SAVE` resolves to
`PLAYBACK_FIRST_SAVE`, and a forward jump whose raw target
`currentPlaybackFrame + 300` exceeds `latestFrame` resolves to
`latestFrame`. -/
theorem c4_seek_target_clamped (sjf sjb : Bool) (cur tgt latest : Int)
    (hlat : PLAYBACK_FIRST_SAVE ≤ latest) :
    PLAYBACK_FIRST_SAVE ≤ resolveTargetFrame sjf sjb cur tgt latest ∧
    resolveTargetFrame sjf sjb cur tgt latest ≤ latest ∧
    (sjb = true → cur - 300 < PLAYBACK_FIRST_SAVE →
      resolveTargetFrame sjf sjb cur tgt latest = PLAYBACK_FIRST_SAVE) ∧
    (sjf = true → sjb = false → cur + 300 > latest →
      resolveTargetFrame sjf sjb cur tgt latest = latest) := by
  unfold resolveTargetFrame
  cases sjf <;> cases sjb <;>
    simp only [Bool.false_eq_true, if_true, if_false, Bool.true_eq_false] <;>
    split_ifs <;>
    refine ⟨by omega, by omega, ?_, ?_⟩ <;> intros <;> simp_all <;> omega

/-- Witness for C4: a backward jump from frame 100 with the first snapshot
at -123 and latest frame 1000 resolves to the clamped value -123. -/
theorem c4_seek_target_clamped_witness :
    PLAYBACK_FIRST_SAVE ≤ resolveTargetFrame false true 100 2147483647 1000 ∧
    resolveTargetFrame false true 100 2147483647 1000 ≤ 1000 ∧
    (true = true → (100 : Int) - 300 < PLAYBACK_FIRST_SAVE →
      resolveTargetFrame false true 100 2147483647 1000 = PLAYBACK_FIRST_SAVE) ∧
    (false = true → true = false → (100 : Int) + 300 > 1000 →
      resolveTargetFrame false true 100 2147483647 1000 = 1000) :=
  c4_seek_target_clamped false true 100 2147483647 1000 (by decide)

theorem forwardWalk_mem (fd : List Int) (cur cand : Int) :
    (cur < forwardWalk fd cur cand → forwardWalk fd cur cand ∈ fd) ∧
    ∃ k : Nat, forwardWalk fd cur cand = cand - FRAME_INTERVAL * k := by
  induction cand using forwardWalk.induct fd cur with
  | case1 x h ih =>
    rw [forwardWalk, dif_pos h]
    refine ⟨ih.1, ?_⟩
    obtain ⟨k, hk⟩ := ih.2
    refine ⟨k + 1, ?_⟩
    unfold FRAME_INTERVAL at hk ⊢
    push_cast at hk ⊢
    omega
  | case2 x h =>
    rw [forwardWalk, dif_neg h]
    push_neg at h
    exact ⟨fun hc => h hc, ⟨0, by omega⟩⟩

theorem forwardWalk_none (fd : List Int) (cur cand : Int) :
    forwardWalk fd cur cand ≤ cur →
    ∀ k : Nat, cand - FRAME_INTERVAL * k > cur → (cand - FRAME_INTERVAL * k) ∉ fd := by
  induction cand using forwardWalk.induct fd cur with
  | case1 x h ih =>
    rw [forwardWalk, dif_pos h]
    intro hle k hk
    cases k with
    | zero => simpa using h.2
    | succ j =>
      have hstep := ih hle j
      have harith : x - FRAME_INTERVAL * ((j : Nat) + 1 : Nat) =
          (x - FRAME_INTERVAL) - FRAME_INTERVAL * (j : Nat) := by
        push_cast
        ring
      rw [harith] at hk ⊢
      exact hstep hk
  | case2 x h =>
    rw [forwardWalk, dif_neg h]
    intro hle k hk
    have hnn : (0 : Int) ≤ FRAME_INTERVAL * (k : Nat) := by
      unfold FRAME_INTERVAL
      positivity
    omega

/-- C5: in the forward-seek branch, a state is loaded (`some r`) only when
the backward walk finds a snapshot boundary `r` with a completed diff
strictly past `currentPlaybackFrame` (so execution never jumps backward
when seeking forward), and `r` is one of the interval boundaries below
`closestStateFrame`; when the load decision is `none`, no boundary in the
walked chain strictly past `currentPlaybackFrame` has a diff. -/
theorem c5_forward_seek_no_backward_load (fd : List Int) (closest cur : Int) :
    (∀ r : Int, seekForwardLoad fd closest cur = some r →
      cur < r ∧ r ∈ fd ∧ ∃ k : Nat, r = closest - FRAME_INTERVAL * ((k : Int) + 1)) ∧
    (seekForwardLoad fd closest cur = none →
      ∀ k : Nat, closest - FRAME_INTERVAL * ((k : Int) + 1) > cur →
        (closest - FRAME_INTERVAL * ((k : Int) + 1)) ∉ fd) := by
  constructor
  · intro r hr
    unfold seekForwardLoad at hr
    simp only at hr
    split_ifs at hr with hgt
    · injection hr with hr
      subst hr
      refine ⟨hgt, (forwardWalk_mem fd cur (closest - FRAME_INTERVAL)).1 hgt, ?_⟩
      obtain ⟨k, hk⟩ := (forwardWalk_mem fd cur (closest - FRAME_INTERVAL)).2
      exact ⟨k, by rw [hk]; ring⟩
  · intro hnone k hk
    unfold seekForwardLoad at hnone
    simp only at hnone
    split_ifs at hnone with hgt
    have hle : forwardWalk fd cur (closest - FRAME_INTERVAL) ≤ cur := by omega
    have := forwardWalk_none fd cur (closest - FRAME_INTERVAL) hle k
    have harith : closest - FRAME_INTERVAL - FRAME_INTERVAL * (k : Int) =
        closest - FRAME_INTERVAL * ((k : Int) + 1) := by ring
    rw [harith] at this
    exact this hk

/-- Witness for C5: with diffs only at frame 100, a forward seek from frame
50 toward boundary 1900 walks down to 100 and loads it; the theorem's first
conjunct instantiated there. -/
theorem c5_forward_seek_no_backward_load_witness :
    (50 : Int) < 100 ∧ (100 : Int) ∈ [(100 : Int)] ∧
    ∃ k : Nat, (100 : Int) = 1900 - FRAME_INTERVAL * ((k : Int) + 1) :=
  (c5_forward_seek_no_backward_load [100] 1900 50).1 100
    (by simp [seekForwardLoad, forwardWalk, FRAME_INTERVAL])

/-- C6: one completed `shouldSeek` iteration of the seek thread, started
from a quiescent configuration (hard FFW off, overclock settings equal to
the captured pre-seek values), ends with hard FFW off, the captured
overclock settings in place, the pre-seek pause/run state of the execution
engine restored, and `shouldJumpBack` / `shouldJumpForward` /
`targetFrameNum` back at their sentinel values `false` / `false` /
`INT_MAX`. -/
theorem c6_seek_iteration_restores (w : SeekWorld) (frameAfterWait : Int)
    (hffw : w.ps.isHardFFW = false)
    (hoce : w.m_OCEnable = w.ps.prevOCEnable)
    (hocf : w.m_OCFactor = w.ps.prevOCFactor) :
    (seekThreadIteration w frameAfterWait).1.ps.isHardFFW = false ∧
    (seekThreadIteration w frameAfterWait).1.m_OCEnable = w.ps.prevOCEnable ∧
    (seekThreadIteration w frameAfterWait).1.m_OCFactor = w.ps.prevOCFactor ∧
    (seekThreadIteration w frameAfterWait).1.corePaused = w.corePaused ∧
    (seekThreadIteration w frameAfterWait).1.ps.shouldJumpBack = false ∧
    (seekThreadIteration w frameAfterWait).1.ps.shouldJumpForward = false ∧
    (seekThreadIteration w frameAfterWait).1.ps.targetFrameNum = INT_MAX := by
  simp only [seekThreadIteration, setHardFFW]
  split_ifs <;> simp_all

/-- Witness for C6: the seek-iteration theorem at `sampleSeekWorld` (a
forward jump from frame 1000), with the engine stopping at frame 1300. -/
theorem c6_seek_iteration_restores_witness :
    (seekThreadIteration sampleSeekWorld 1300).1.ps.isHardFFW = false ∧
    (seekThreadIteration sampleSeekWorld 1300).1.m_OCEnable =
      sampleSeekWorld.ps.prevOCEnable ∧
    (seekThreadIteration sampleSeekWorld 1300).1.m_OCFactor =
      sampleSeekWorld.ps.prevOCFactor ∧
    (seekThreadIteration sampleSeekWorld 1300).1.corePaused =
      sampleSeekWorld.corePaused ∧
    (seekThreadIteration sampleSeekWorld 1300).1.ps.shouldJumpBack = false ∧
    (seekThreadIteration sampleSeekWorld 1300).1.ps.shouldJumpForward = false ∧
    (seekThreadIteration sampleSeekWorld 1300).1.ps.targetFrameNum = INT_MAX :=
  c6_seek_iteration_restores sampleSeekWorld 1300 (by decide) (by decide) (by decide)

/-- C7 counterexample: resetting a mid-session state does not return the
state to the constructor configuration: `currentPlaybackFrame` (like
`latestFrame` and `lastFFWFrame`) keeps its session value 100 instead of
the constructor's `INT_MIN`. -/
theorem c7_counterexample :
    (resetPlayback sampleSessionState).1 ≠ SlippiPlaybackStatus.init false 1 ∧
    (resetPlayback sampleSessionState).1.currentPlaybackFrame = 100 ∧
    (SlippiPlaybackStatus.init false 1).currentPlaybackFrame = INT_MIN := by
  refine ⟨?_, by decide, by decide⟩
  intro h
  have : (resetPlayback sampleSessionState).1.currentPlaybackFrame =
      (SlippiPlaybackStatus.init false 1).currentPlaybackFrame := by rw [h]
  revert this
  decide

/-- C7 (amended): calling `resetPlayback` twice in a row is safe — the
second call performs no thread operations and leaves the state unchanged —
and after any call the jump/FFW flags, `inSlippiPlayback`,
`shouldRunThreads` are false and `targetFrameNum` is `INT_MAX`, as in the
constructor; but `currentPlaybackFrame`, `latestFrame` and `lastFFWFrame`
keep their session values rather than being reset. -/
theorem c7_reset_idempotent_partial (st : PlaybackState) :
    (resetPlayback (resetPlayback st).1).2 = false ∧
    (resetPlayback (resetPlayback st).1).1 = (resetPlayback st).1 ∧
    (resetPlayback st).1.shouldJumpBack = false ∧
    (resetPlayback st).1.shouldJumpForward = false ∧
    (resetPlayback st).1.isHardFFW = false ∧
    (resetPlayback st).1.isSoftFFW = false ∧
    (resetPlayback st).1.inSlippiPlayback = false ∧
    (resetPlayback st).1.shouldRunThreads = false ∧
    (resetPlayback st).1.targetFrameNum = INT_MAX ∧
    (resetPlayback st).1.currentPlaybackFrame = st.currentPlaybackFrame ∧
    (resetPlayback st).1.latestFrame = st.latestFrame ∧
    (resetPlayback st).1.lastFFWFrame = st.lastFFWFrame := by
  obtain ⟨sjb, sjf, isp, srt, hffw, sffw, lff, cpf, tfn, lat, poe, pof, fd⟩ := st
  simp only [resetPlayback]
  split_ifs <;> simp_all

/-- C8 counterexample: with non-default bounds `[100, 200]`, a target of 50
below `startFrame` lowers `startFrame` to 50 — the interval `[50, 200]` is
strictly wider than `[100, 200]` — and a target of 300 above `endFrame`
resets `endFrame` to `INT_MAX`, which is larger than the old bound 200. -/
theorem c8_counterexample :
    updateWatchSettingsStartEnd 50 100 200 = (50, 200) ∧
    (updateWatchSettingsStartEnd 50 100 200).1 < 100 ∧
    updateWatchSettingsStartEnd 300 100 200 = (100, INT_MAX) ∧
    (updateWatchSettingsStartEnd 300 100 200).2 > 200 := by
  refine ⟨by decide, by decide, by decide, by decide⟩

/-- C8 (amended): when the replay source's bounds are non-default, the seek
controller widens (never narrows) them around the current target: the new
`startFrame` is `≤` the old one (a target below `startFrame` becomes the
new `startFrame`), the new `endFrame` is `≥` the old one (a target above
`endFrame` resets `endFrame` to `INT_MAX`, i.e. unbounded), and a target
already inside the bounds leaves them unchanged. -/
theorem c8_update_watch_widens (target s e : Int)
    (hnd : s ≠ GAME_FIRST_FRAME ∨ e ≠ INT_MAX) (he : e ≤ INT_MAX) :
    (updateWatchSettingsStartEnd target s e).1 ≤ s ∧
    e ≤ (updateWatchSettingsStartEnd target s e).2 ∧
    (target < s → (updateWatchSettingsStartEnd target s e).1 = target) ∧
    (target > e → (updateWatchSettingsStartEnd target s e).2 = INT_MAX) ∧
    (¬ target < s → (updateWatchSettingsStartEnd target s e).1 = s) ∧
    (¬ target > e → (updateWatchSettingsStartEnd target s e).2 = e) := by
  unfold updateWatchSettingsStartEnd
  rw [if_pos hnd]
  constructor
  · split_ifs <;> omega
  constructor
  · split_ifs <;> omega
  refine ⟨fun h => ?_, fun h => ?_, fun h => ?_, fun h => ?_⟩ <;> simp [h]

/-- Witness for C8: the widening theorem at target 50, bounds `[100, 200]`. -/
theorem c8_update_watch_widens_witness :
    (updateWatchSettingsStartEnd 50 100 200).1 ≤ 100 ∧
    (200 : Int) ≤ (updateWatchSettingsStartEnd 50 100 200).2 ∧
    ((50 : Int) < 100 → (updateWatchSettingsStartEnd 50 100 200).1 = 50) ∧
    ((50 : Int) > 200 → (updateWatchSettingsStartEnd 50 100 200).2 = INT_MAX) ∧
    (¬ (50 : Int) < 100 → (updateWatchSettingsStartEnd 50 100 200).1 = 100) ∧
    (¬ (50 : Int) > 200 → (updateWatchSettingsStartEnd 50 100 200).2 = 200) :=
  c8_update_watch_widens 50 100 200 (by decide) (by decide)

/-- C9: `shouldFFWFrame` is the pass-through fast-forward policy: it
returns true exactly when hard FFW is on, or when soft FFW is on and at
least 15 frames have passed since `lastFFWFrame`; in particular it returns
false whenever neither mode is active. -/
theorem c9_should_ffw_policy (st : PlaybackState) (frameIndex : Int) :
    shouldFFWFrame st frameIndex =
      (st.isHardFFW || (st.isSoftFFW && decide (frameIndex - st.lastFFWFrame ≥ 15))) ∧
    (st.isHardFFW = false → st.isSoftFFW = false →
      shouldFFWFrame st frameIndex = false) := by
  unfold shouldFFWFrame
  rcases hh : st.isHardFFW <;> rcases hs : st.isSoftFFW <;> simp_all

/-- Witness for C9: the policy theorem at `sampleSessionState` (neither FFW
mode active) and frame 100. -/
theorem c9_should_ffw_policy_witness :
    shouldFFWFrame sampleSessionState 100 = false :=
  (c9_should_ffw_policy sampleSessionState 100).2 rfl rfl

/-- C10: `shouldFFWFrame` is a pure query: a call returns the state
unchanged, and any number of consecutive calls on the same state with the
same frame index all return the result of the single query and leave the
state (in particular `lastFFWFrame` and the FFW flags) untouched. -/
theorem c10_should_ffw_pure (st : PlaybackState) (frameIndex : Int) (n : Nat) :
    (shouldFFWFrameCall st frameIndex).2 = st ∧
    (iterateFFWQuery st frameIndex n).2 = st ∧
    (iterateFFWQuery st frameIndex n).1 =
      List.replicate n (shouldFFWFrame st frameIndex) := by
  refine ⟨rfl, ?_, ?_⟩ <;>
    · induction n with
      | zero => simp [iterateFFWQuery]
      | succ m ih => simp_all [iterateFFWQuery, shouldFFWFrameCall, List.replicate]
